import Mathlib

/-!
Verification development for the Order Lifecycle & Payment Reconciliation
Engine of the Native-Local-Ecommerce repository.

The payment reconciliation service (backend `payments.service.ts`) and the
order lifecycle service (`orders.service.ts`) are shallowly embedded below.
Database state is passed explicitly (`PayDB` for the payment side, `Shop`
for the order side); a Prisma `update`/`create` call becomes a pure update
of that state, and a thrown `HttpException` becomes an `Except.error` that
carries no new state, so an error result leaves the store exactly as it
was.  Timestamps (`new Date()` / `Date.now()`) are supplied as explicit
`Nat` parameters, and the HMAC-SHA-512 primitive used for webhook
signatures is an abstract `String → String` parameter.
-/

/-- Enumeration `PaymentStatus` from the Prisma schema: the statuses the
payments service reads and writes. -/
inductive PaymentStatus
  | PENDING
  | COMPLETED
  | FAILED
deriving DecidableEq

/-- Enumeration `OrderStatus` from the Prisma schema, as used by the orders
service transition table and by payment reconciliation. -/
inductive OrderStatus
  | PLACED
  | ACCEPTED
  | PREPARING
  | READY_FOR_PICKUP
  | OUT_FOR_DELIVERY
  | DELIVERED
  | COMPLETED
  | CANCELLED
  | FAILED
  | DISPUTED
deriving DecidableEq

/-- Errors thrown by the services: `NotFoundException`, `BadRequestException`
and `ForbiddenException` of NestJS, with their message strings. -/
inductive Err
  | NotFound (msg : String)
  | BadRequest (msg : String)
  | Forbidden (msg : String)
deriving DecidableEq

/-- Payment row: the fields of the Prisma `Payment` model that
`payments.service.ts` reads or writes during reconciliation. -/
structure Payment where
  id : Nat
  orderId : Nat
  amount : Nat
  reference : String
  status : PaymentStatus
  verifiedAt : Option Nat
  webhookVerified : Bool
  webhookReceived : Bool
  webhookPayload : Option String
deriving DecidableEq

/-- Order row as seen by the payments service: the fields read by
`initializePayment` and written by reconciliation.  `merchantHasPaystack`
stands for the store→merchant→paystackAccount include chain being
non-null. -/
structure PayOrder where
  id : Nat
  customerEmail : String
  customerPhone : String
  total : Nat
  paymentStatus : PaymentStatus
  paidAt : Option Nat
  status : OrderStatus
  merchantHasPaystack : Bool
deriving DecidableEq

/-- Database state for the payments service. -/
structure PayDB where
  payments : List Payment
  orders : List PayOrder
deriving DecidableEq

/-- Lookup `prisma.payment.findFirst({ where: { paystackReference: reference } })`,
the read step shared by `verifyPayment` (line 135) and `handleChargeSuccess`
(line 238) of `payments.service.ts`. -/
def findPayment (db : PayDB) (reference : String) : Option Payment :=
  db.payments.find? (fun p => p.reference == reference)

/-- Write step of `PaymentsService.handleChargeSuccess` (payments.service.ts
lines 242-261), applied to the payment row `observed` that the preceding
`findFirst` returned: if the observed status is `PENDING`, update the
payment (by id) to `COMPLETED` with `verifiedAt`, `webhookReceived` and the
raw payload, and update the order (by the observed `orderId`) to
`paymentStatus COMPLETED`, `paidAt`, order status `PREPARING`; otherwise do
nothing. -/
def chargeSuccessApply (db : PayDB) (observed : Payment) (payload : String)
    (now : Nat) : PayDB :=
  if observed.status = PaymentStatus.PENDING then
    let db1 : PayDB :=
      { db with
        payments := db.payments.map (fun p =>
          if p.id == observed.id then
            { p with
              status := PaymentStatus.COMPLETED
              verifiedAt := some now
              webhookReceived := true
              webhookPayload := some payload }
          else p) }
    { db1 with
      orders := db1.orders.map (fun o =>
        if o.id == observed.orderId then
          { o with
            paymentStatus := PaymentStatus.COMPLETED
            paidAt := some now
            status := OrderStatus.PREPARING }
        else o) }
  else db

/-- `PaymentsService.handleChargeSuccess` (payments.service.ts lines 237-262):
find the payment by reference, then conditionally reconcile.  A missing
payment is silently ignored. -/
def handleChargeSuccess (db : PayDB) (reference payload : String) (now : Nat) :
    PayDB :=
  match findPayment db reference with
  | some payment => chargeSuccessApply db payment payload now
  | none => db

/-- Write step of `PaymentsService.verifyPayment` (payments.service.ts lines
154-183), applied to the payment row `observed` returned by the preceding
`findFirst`: unconditionally update the payment (by id) to `COMPLETED` or
`FAILED` according to the processor verification result, set
`webhookVerified` and store the raw verify response; if the processor
reported success, also update the order (by the observed `orderId`).  There
is no `PENDING` guard on this path. -/
def verifyApply (db : PayDB) (observed : Payment) (paystackStatus payloadRaw : String)
    (now : Nat) : PayDB :=
  let success := paystackStatus == "success"
  let db1 : PayDB :=
    { db with
      payments := db.payments.map (fun p =>
        if p.id == observed.id then
          { p with
            status := if success then PaymentStatus.COMPLETED else PaymentStatus.FAILED
            verifiedAt := if success then some now else none
            webhookVerified := true
            webhookPayload := some payloadRaw }
        else p) }
  if success then
    { db1 with
      orders := db1.orders.map (fun o =>
        if o.id == observed.orderId then
          { o with
            paymentStatus := PaymentStatus.COMPLETED
            paidAt := some now
            status := OrderStatus.PREPARING }
        else o) }
  else db1

/-- `PaymentsService.verifyPayment` (payments.service.ts lines 130-193).
`paystackStatus` is the `status` field of the processor verify-by-reference
response (the call happens before any state is read) and `payloadRaw`
stands for the whole raw response stored into `webhookPayload`.  Returns
the updated state together with the `verified` flag of the response body. -/
def verifyPayment (db : PayDB) (reference : String) (paystackStatus payloadRaw : String)
    (now : Nat) : Except Err (PayDB × Bool) :=
  match findPayment db reference with
  | none => Except.error (Err.NotFound "Payment not found")
  | some payment =>
      Except.ok (verifyApply db payment paystackStatus payloadRaw now,
        paystackStatus == "success")

/-- `PaystackService.verifyWebhookSignature` (paystack.service.ts): compare
the hex HMAC-SHA-512 of the raw body against the supplied signature header.
The HMAC computation `crypto.createHmac(sha512, secretKey).update(body)`
is abstracted as the function `hmacHex`. -/
def verifyWebhookSignature (hmacHex : String → String) (signature body : String) :
    Bool :=
  hmacHex body == signature

/-- Parsed shape of a webhook body as `handleWebhook` consumes it: the
`event` discriminator and, for `charge.success`, the reference and raw
`data` payload. -/
structure WebhookEvent where
  event : String
  reference : String
  payload : String
deriving DecidableEq

/-- `PaymentsService.handleWebhook` (payments.service.ts lines 198-232):
verify the signature first and reject with `BadRequestException` before the
body is parsed; otherwise dispatch on the event type — only
`charge.success` mutates state, the transfer events and the default branch
only log.  `parse` stands for `JSON.parse` on the raw body. -/
def handleWebhook (hmacHex : String → String) (parse : String → WebhookEvent)
    (db : PayDB) (signature body : String) (now : Nat) : Except Err PayDB :=
  if verifyWebhookSignature hmacHex signature body then
    let event := parse body
    if event.event == "charge.success" then
      Except.ok (handleChargeSuccess db event.reference event.payload now)
    else
      Except.ok db
  else
    Except.error (Err.BadRequest "Invalid webhook signature")

/-- `PaymentsService.initializePayment` (payments.service.ts lines 27-125):
after the order lookup, the contact check, the already-paid check and the
merchant-subaccount check, create a fresh `PENDING` payment row for the
order.  `newId` and `reference` stand for the generated row id and the
generated unique reference; the processor initialize call itself holds no
local state. -/
def initializePayment (db : PayDB) (orderId : Nat) (email phone : String)
    (newId : Nat) (reference : String) : Except Err (PayDB × Payment) :=
  match db.orders.find? (fun o => o.id == orderId) with
  | none => Except.error (Err.NotFound "Order not found")
  | some order =>
      if order.customerEmail != email && order.customerPhone != phone then
        Except.error (Err.BadRequest "Order does not match provided contact information")
      else if order.paymentStatus = PaymentStatus.COMPLETED then
        Except.error (Err.BadRequest "Order already paid")
      else if !order.merchantHasPaystack then
        Except.error (Err.BadRequest "Merchant has not linked payment account")
      else
        let payment : Payment :=
          { id := newId
            orderId := order.id
            amount := order.total
            reference := reference
            status := PaymentStatus.PENDING
            verifiedAt := none
            webhookVerified := false
            webhookReceived := false
            webhookPayload := none }
        Except.ok ({ db with payments := db.payments ++ [payment] }, payment)

/-- Store row fields read by the orders service. -/
structure Store where
  id : Nat
  merchantId : Nat
  status : String
  isPublished : Bool
deriving DecidableEq

/-- Merchant row: the actor→merchant mapping used for ownership checks. -/
structure Merchant where
  id : Nat
  userId : Nat
deriving DecidableEq

/-- Product variant row (`ProductVariant` table).  Variants are kept in one
flat list as in the database; the `product.variants` include of the source
corresponds to filtering this list by `productId`, and the
`productVariant.update` calls address a variant by its own id. -/
structure Variant where
  id : Nat
  productId : Nat
  name : String
  price : Option Nat
  isAvailable : Bool
  stockQuantity : Option Int
deriving DecidableEq

/-- Product row fields read or written by the orders service. -/
structure Product where
  id : Nat
  storeId : Nat
  name : String
  description : String
  images : List String
  sku : Option String
  price : Nat
  isAvailable : Bool
  trackInventory : Bool
  stockQuantity : Option Int
  orderCount : Nat
deriving DecidableEq

/-- Entry of an order's append-only status history. -/
structure StatusEntry where
  status : OrderStatus
  timestamp : Nat
  note : String
deriving DecidableEq

/-- Frozen product snapshot captured on each order item at creation time. -/
structure ProductSnapshot where
  name : String
  description : String
  images : List String
  sku : Option String
deriving DecidableEq

/-- Order line item as persisted by `createOrder`. -/
structure OrderItem where
  productId : Nat
  variantId : Option Nat
  productName : String
  variantName : Option String
  price : Nat
  quantity : Nat
  subtotal : Nat
  productSnapshot : ProductSnapshot
deriving DecidableEq

/-- Order row as the orders service stores it. -/
structure StoredOrder where
  id : Nat
  orderNumber : String
  storeId : Nat
  customerName : String
  customerPhone : String
  customerEmail : Option String
  status : OrderStatus
  subtotal : Nat
  deliveryFee : Nat
  tax : Nat
  discount : Nat
  total : Nat
  deliveryOption : String
  deliveryAddress : Option String
  deliveryCity : Option String
  deliveryArea : Option String
  deliveryNotes : Option String
  paymentMethod : String
  paymentStatus : PaymentStatus
  customerNotes : Option String
  merchantNotes : Option String
  trackingUrl : Option String
  statusHistory : List StatusEntry
  items : List OrderItem
  acceptedAt : Option Nat
  preparingAt : Option Nat
  readyAt : Option Nat
  deliveredAt : Option Nat
  completedAt : Option Nat
  cancelledAt : Option Nat
  cancellationReason : Option String
deriving DecidableEq

/-- Database state for the orders service. -/
structure Shop where
  stores : List Store
  merchants : List Merchant
  products : List Product
  variants : List Variant
  orders : List StoredOrder
deriving DecidableEq

/-- One line of the `CreateOrderDto.items` array. -/
structure OrderItemDto where
  productId : Nat
  variantId : Option Nat
  quantity : Nat
deriving DecidableEq

/-- Input of `OrdersService.createOrder`. -/
structure CreateOrderDto where
  storeId : Nat
  customerName : String
  customerPhone : String
  customerEmail : Option String
  items : List OrderItemDto
  deliveryOption : String
  deliveryAddress : Option String
  deliveryCity : Option String
  deliveryArea : Option String
  deliveryNotes : Option String
  paymentMethod : String
  customerNotes : Option String
deriving DecidableEq

/-- JavaScript truthiness of an optional string: `undefined` and the empty
string are both falsy, as in the guards of the source. -/
def strTruthy : Option String → Bool
  | none => false
  | some s => s != ""

/-- JavaScript `a || b` on an optional string with a default. -/
def strOr (s : Option String) (d : String) : String :=
  match s with
  | some v => if v == "" then d else v
  | none => d

/-- Relation `product.variants` of the createOrder include: the variant rows
whose `productId` matches. -/
def productVariants (vs : List Variant) (productId : Nat) : List Variant :=
  vs.filter (fun v => v.productId == productId)

/-- `OrdersService.calculateDeliveryFee` (part_015 lines 704-727): zero for
pickup and customer-arranged delivery, otherwise a static city→fee table
with a default of 20 for unlisted cities. -/
def calculateDeliveryFee (deliveryOption : String) (deliveryCity : Option String) :
    Nat :=
  if deliveryOption == "PICKUP" then 0
  else if deliveryOption == "CUSTOMER_ARRANGED" then 0
  else
    let city := deliveryCity.getD ""
    if city == "Accra" then 15
    else if city == "Kumasi" then 15
    else if city == "Tema" then 20
    else if city == "Takoradi" then 25
    else if city == "Tamale" then 30
    else if city == "Cape Coast" then 25
    else 20

/-- Guard of the stock validation in the item loop (part_015 lines 98-105):
the product tracks inventory, the effective stock counter is non-null, and
the counter is below the requested quantity. -/
def insufficientStock (product : Product) (stockQuantity : Option Int)
    (quantity : Nat) : Bool :=
  product.trackInventory &&
    (match stockQuantity with
     | some stock => decide (stock < (quantity : Int))
     | none => false)

/-- Tail of the item loop of `createOrder` once price, variant name and the
effective stock counter are resolved: run the stock-sufficiency check and
build the order-item row. -/
def finishLine (product : Product) (item : OrderItemDto) (price : Nat)
    (variantName : Option String) (stockQuantity : Option Int) :
    Except Err OrderItem :=
  if insufficientStock product stockQuantity item.quantity then
    Except.error (Err.BadRequest "Insufficient stock")
  else
    Except.ok
      { productId := item.productId
        variantId := item.variantId
        productName := product.name
        variantName := variantName
        price := price
        quantity := item.quantity
        subtotal := price * item.quantity
        productSnapshot :=
          { name := product.name
            description := product.description
            images := product.images
            sku := product.sku } }

/-- One iteration of the item loop in `OrdersService.createOrder` (part_015
lines 75-125): resolve the product from the pre-fetched list, resolve the
variant when one was requested (price falls back to the product price when
the variant has none), then run the stock check and build the row. -/
def checkLine (products : List Product) (variants : List Variant)
    (item : OrderItemDto) : Except Err OrderItem :=
  match products.find? (fun p => p.id == item.productId) with
  | none => Except.error (Err.BadRequest "Product not found")
  | some product =>
    match item.variantId with
    | none => finishLine product item product.price none product.stockQuantity
    | some vid =>
      match (productVariants variants product.id).find? (fun v => v.id == vid) with
      | none => Except.error (Err.BadRequest "Variant not available")
      | some variant =>
        if !variant.isAvailable then
          Except.error (Err.BadRequest "Variant not available")
        else
          finishLine product item (variant.price.getD product.price)
            (some variant.name) variant.stockQuantity

/-- The whole item loop of `createOrder`: accumulate the subtotal and the
order-item rows, aborting at the first failing line. -/
def buildItems (products : List Product) (variants : List Variant) :
    List OrderItemDto → Except Err (Nat × List OrderItem)
  | [] => Except.ok (0, [])
  | item :: rest =>
    match checkLine products variants item with
    | Except.error e => Except.error e
    | Except.ok oi =>
      match buildItems products variants rest with
      | Except.error e => Except.error e
      | Except.ok (s, ois) => Except.ok (oi.subtotal + s, oi :: ois)

/-- The `findMany` of createOrder (part_015 lines 56-65): products of the
target store, currently available, with id among the ordered ids. -/
def filteredProducts (shop : Shop) (dto : CreateOrderDto) : List Product :=
  let productIds := dto.items.map (fun i => i.productId)
  shop.products.filter (fun p =>
    productIds.contains p.id && p.storeId == dto.storeId && p.isAvailable)

/-- Per-item mutation inside the creation transaction (part_015 lines
196-225): when the product tracks inventory, decrement the stock counter of
the variant row (when a variant was ordered) or of the product row, and in
every case increment the product order count by the quantity.  The
inventory guard consults `validated`, the product list fetched before the
transaction; a decrement of a null counter leaves it null, as SQL
arithmetic does. -/
def createStockStep (validated : List Product) (shop : Shop)
    (item : OrderItemDto) : Shop :=
  let shop1 : Shop :=
    match validated.find? (fun p => p.id == item.productId) with
    | some product =>
      if product.trackInventory then
        match item.variantId with
        | some vid =>
          { shop with
            variants := shop.variants.map (fun v =>
              if v.id == vid then
                { v with stockQuantity :=
                    v.stockQuantity.map (fun s => s - (item.quantity : Int)) }
              else v) }
        | none =>
          { shop with
            products := shop.products.map (fun p =>
              if p.id == item.productId then
                { p with stockQuantity :=
                    p.stockQuantity.map (fun s => s - (item.quantity : Int)) }
              else p) }
      else shop
    | none => shop
  { shop1 with
    products := shop1.products.map (fun p =>
      if p.id == item.productId then
        { p with orderCount := p.orderCount + item.quantity }
      else p) }

/-- The stock-adjustment loop of the creation transaction over all lines,
in list order. -/
def createStock (validated : List Product) : List OrderItemDto → Shop → Shop
  | [], shop => shop
  | item :: rest, shop => createStock validated rest (createStockStep validated shop item)

/-- `OrdersService.createOrder` (part_015 lines 28-249).  `orderNumber`,
`newId` and `now` stand for the generated order number, the generated row
id and the clock.  Every validation failure is raised before the
transaction; the success case commits the order row, its items, the stock
decrements and the order-count increments together. -/
def createOrder (shop : Shop) (dto : CreateOrderDto) (orderNumber : String)
    (newId : Nat) (now : Nat) : Except Err (Shop × StoredOrder) :=
  match shop.stores.find? (fun s => s.id == dto.storeId) with
  | none => Except.error (Err.NotFound "Store not found")
  | some store =>
    if store.status != "ACTIVE" || !store.isPublished then
      Except.error (Err.BadRequest "Store is not available for orders")
    else if dto.deliveryOption == "MERCHANT_DELIVERY" &&
        (!(strTruthy dto.deliveryAddress) || !(strTruthy dto.deliveryCity)) then
      Except.error
        (Err.BadRequest "Delivery address and city are required for merchant delivery")
    else
      let products := filteredProducts shop dto
      if products.length != dto.items.length then
        Except.error (Err.BadRequest "Some products are not available")
      else
        match buildItems products shop.variants dto.items with
        | Except.error e => Except.error e
        | Except.ok (subtotal, orderItems) =>
          let deliveryFee := calculateDeliveryFee dto.deliveryOption dto.deliveryCity
          let newOrder : StoredOrder :=
            { id := newId
              orderNumber := orderNumber
              storeId := dto.storeId
              customerName := dto.customerName
              customerPhone := dto.customerPhone
              customerEmail := dto.customerEmail
              status := OrderStatus.PLACED
              subtotal := subtotal
              deliveryFee := deliveryFee
              tax := 0
              discount := 0
              total := subtotal + deliveryFee + 0 - 0
              deliveryOption := dto.deliveryOption
              deliveryAddress := dto.deliveryAddress
              deliveryCity := dto.deliveryCity
              deliveryArea := dto.deliveryArea
              deliveryNotes := dto.deliveryNotes
              paymentMethod := dto.paymentMethod
              paymentStatus := PaymentStatus.PENDING
              customerNotes := dto.customerNotes
              merchantNotes := none
              trackingUrl := none
              statusHistory :=
                [{ status := OrderStatus.PLACED, timestamp := now, note := "Order placed" }]
              items := orderItems
              acceptedAt := none
              preparingAt := none
              readyAt := none
              deliveredAt := none
              completedAt := none
              cancelledAt := none
              cancellationReason := none }
          let shop1 :=
            createStock products dto.items { shop with orders := shop.orders ++ [newOrder] }
          Except.ok (shop1, newOrder)

/-- Transition table of `OrdersService.validateStatusTransition` (part_015
lines 736-747). -/
def validTransitions : OrderStatus → List OrderStatus
  | OrderStatus.PLACED => [OrderStatus.ACCEPTED, OrderStatus.CANCELLED]
  | OrderStatus.ACCEPTED => [OrderStatus.PREPARING, OrderStatus.CANCELLED]
  | OrderStatus.PREPARING =>
      [OrderStatus.READY_FOR_PICKUP, OrderStatus.OUT_FOR_DELIVERY, OrderStatus.CANCELLED]
  | OrderStatus.READY_FOR_PICKUP => [OrderStatus.COMPLETED, OrderStatus.CANCELLED]
  | OrderStatus.OUT_FOR_DELIVERY => [OrderStatus.DELIVERED, OrderStatus.FAILED]
  | OrderStatus.DELIVERED => [OrderStatus.COMPLETED, OrderStatus.DISPUTED]
  | OrderStatus.COMPLETED => [OrderStatus.DISPUTED]
  | OrderStatus.CANCELLED => []
  | OrderStatus.FAILED => [OrderStatus.PLACED]
  | OrderStatus.DISPUTED => []

/-- Guard of `OrdersService.validateStatusTransition` (part_015 lines
749-756): the requested transition is listed in the table. -/
def validateStatusTransition (currentStatus newStatus : OrderStatus) : Bool :=
  (validTransitions currentStatus).contains newStatus

/-- Transition table as written in section 4.1 of the specification,
current status → set of allowed next statuses.  This definition follows
the wording of the specification, to be compared with the implementation
table `validTransitions`. -/
def specTransitionTable : OrderStatus → List OrderStatus
  | OrderStatus.PLACED => [OrderStatus.ACCEPTED, OrderStatus.CANCELLED]
  | OrderStatus.ACCEPTED => [OrderStatus.PREPARING, OrderStatus.CANCELLED]
  | OrderStatus.PREPARING =>
      [OrderStatus.READY_FOR_PICKUP, OrderStatus.OUT_FOR_DELIVERY, OrderStatus.CANCELLED]
  | OrderStatus.READY_FOR_PICKUP => [OrderStatus.COMPLETED, OrderStatus.CANCELLED]
  | OrderStatus.OUT_FOR_DELIVERY => [OrderStatus.DELIVERED, OrderStatus.FAILED]
  | OrderStatus.DELIVERED => [OrderStatus.COMPLETED, OrderStatus.DISPUTED]
  | OrderStatus.COMPLETED => [OrderStatus.DISPUTED]
  | OrderStatus.CANCELLED => []
  | OrderStatus.FAILED => [OrderStatus.PLACED]
  | OrderStatus.DISPUTED => []

/-- Membership in the section 4.1 table: the pair (current → requested) is
an edge of the specified state machine. -/
def specAllows (currentStatus newStatus : OrderStatus) : Bool :=
  (specTransitionTable currentStatus).contains newStatus

/-- Printed name of a status, as interpolated into the default
status-history note of `updateOrderStatus`. -/
def statusStr : OrderStatus → String
  | OrderStatus.PLACED => "PLACED"
  | OrderStatus.ACCEPTED => "ACCEPTED"
  | OrderStatus.PREPARING => "PREPARING"
  | OrderStatus.READY_FOR_PICKUP => "READY_FOR_PICKUP"
  | OrderStatus.OUT_FOR_DELIVERY => "OUT_FOR_DELIVERY"
  | OrderStatus.DELIVERED => "DELIVERED"
  | OrderStatus.COMPLETED => "COMPLETED"
  | OrderStatus.CANCELLED => "CANCELLED"
  | OrderStatus.FAILED => "FAILED"
  | OrderStatus.DISPUTED => "DISPUTED"

/-- `OrdersService.updateOrderStatus` (part_015 lines 443-531): look up the
order, check that the caller is the merchant owning its store, validate the
transition against the table, then persist the new status with one appended
history entry and the timestamp field belonging to the new status.  Fields
passed as `undefined` in the DTO are left unchanged by the Prisma update. -/
def updateOrderStatus (shop : Shop) (userId : Nat) (orderId : Nat)
    (newStatus : OrderStatus) (merchantNotes trackingUrl : Option String)
    (now : Nat) : Except Err (Shop × StoredOrder) :=
  match shop.orders.find? (fun o => o.id == orderId) with
  | none => Except.error (Err.NotFound "Order not found")
  | some order =>
    let ownerOk : Bool :=
      match shop.merchants.find? (fun m => m.userId == userId) with
      | none => false
      | some merchant =>
        match shop.stores.find? (fun s => s.id == order.storeId) with
        | none => false
        | some store => store.merchantId == merchant.id
    if !ownerOk then Except.error (Err.Forbidden "You do not own this order")
    else if !(validateStatusTransition order.status newStatus) then
      Except.error (Err.BadRequest "Cannot transition")
    else
      let statusHistory := order.statusHistory ++
        [{ status := newStatus
           timestamp := now
           note := strOr merchantNotes ("Status updated to " ++ statusStr newStatus) }]
      let updated : StoredOrder :=
        { order with
          status := newStatus
          merchantNotes :=
            match merchantNotes with
            | some v => some v
            | none => order.merchantNotes
          trackingUrl :=
            match trackingUrl with
            | some v => some v
            | none => order.trackingUrl
          statusHistory := statusHistory
          acceptedAt :=
            if newStatus = OrderStatus.ACCEPTED then some now else order.acceptedAt
          preparingAt :=
            if newStatus = OrderStatus.PREPARING then some now else order.preparingAt
          readyAt :=
            if newStatus = OrderStatus.READY_FOR_PICKUP then some now else order.readyAt
          deliveredAt :=
            if newStatus = OrderStatus.DELIVERED then some now else order.deliveredAt
          completedAt :=
            if newStatus = OrderStatus.COMPLETED then some now else order.completedAt
          cancelledAt :=
            if newStatus = OrderStatus.CANCELLED then some now else order.cancelledAt }
      Except.ok
        ({ shop with
           orders := shop.orders.map (fun o => if o.id == orderId then updated else o) },
         updated)

/-- Per-item stock restore inside the cancellation transaction (part_015
lines 600-619): when the product of the line tracks inventory, increment
the stock counter of the variant row (when the line has a variant) or of
the product row by the line quantity.  The guard reads
`item.product.trackInventory` from the rows loaded with the order before
the transaction, here `captured`. -/
def cancelStockStep (captured : List Product) (shop : Shop) (item : OrderItem) :
    Shop :=
  match captured.find? (fun p => p.id == item.productId) with
  | some product =>
    if product.trackInventory then
      match item.variantId with
      | some vid =>
        { shop with
          variants := shop.variants.map (fun v =>
            if v.id == vid then
              { v with stockQuantity :=
                  v.stockQuantity.map (fun s => s + (item.quantity : Int)) }
            else v) }
      | none =>
        { shop with
          products := shop.products.map (fun p =>
            if p.id == item.productId then
              { p with stockQuantity :=
                  p.stockQuantity.map (fun s => s + (item.quantity : Int)) }
            else p) }
    else shop
  | none => shop

/-- The stock-restore loop of the cancellation transaction over all lines,
in list order. -/
def cancelStock (captured : List Product) : List OrderItem → Shop → Shop
  | [], shop => shop
  | item :: rest, shop => cancelStock captured rest (cancelStockStep captured shop item)

/-- `OrdersService.cancelOrder` (part_015 lines 536-643): refuse when the
order is DELIVERED, COMPLETED or CANCELLED; when the status is not PLACED
and a caller id was supplied, require the caller to be the merchant owning
the store; then set the order CANCELLED with one appended history entry and
restore the stock of every tracked line in the same transaction. -/
def cancelOrder (shop : Shop) (orderId : Nat) (cancellationReason : Option String)
    (userId : Option Nat) (now : Nat) : Except Err Shop :=
  match shop.orders.find? (fun o => o.id == orderId) with
  | none => Except.error (Err.NotFound "Order not found")
  | some order =>
    if order.status = OrderStatus.DELIVERED ∨ order.status = OrderStatus.COMPLETED ∨
        order.status = OrderStatus.CANCELLED then
      Except.error (Err.BadRequest "Cannot cancel order with this status")
    else
      let merchantBlocked : Bool :=
        if order.status ≠ OrderStatus.PLACED then
          match userId with
          | some uid =>
            (match shop.merchants.find? (fun m => m.userId == uid) with
             | none => true
             | some merchant =>
               match shop.stores.find? (fun s => s.id == order.storeId) with
               | none => true
               | some store => store.merchantId != merchant.id)
          | none => false
        else false
      if merchantBlocked then
        Except.error (Err.Forbidden "Only merchant can cancel accepted orders")
      else
        let statusHistory := order.statusHistory ++
          [{ status := OrderStatus.CANCELLED
             timestamp := now
             note := strOr cancellationReason "Order cancelled" }]
        let updated : StoredOrder :=
          { order with
            status := OrderStatus.CANCELLED
            cancelledAt := some now
            cancellationReason :=
              match cancellationReason with
              | some v => some v
              | none => order.cancellationReason
            statusHistory := statusHistory }
        let shop1 : Shop :=
          { shop with
            orders := shop.orders.map (fun o => if o.id == orderId then updated else o) }
        Except.ok (cancelStock shop.products order.items shop1)

/-- `OrdersService.getOrderByNumber` (part_015 lines 402-438), the service
behind the public tracking route `GET /orders/track/:orderNumber`
(orders.controller.ts lines 57-67).  The phone comparison runs only when a
truthy phone was supplied with the request. -/
def getOrderByNumber (shop : Shop) (orderNumber : String)
    (customerPhone : Option String) : Except Err StoredOrder :=
  match shop.orders.find? (fun o => o.orderNumber == orderNumber) with
  | none => Except.error (Err.NotFound "Order not found")
  | some order =>
    if strTruthy customerPhone && order.customerPhone != customerPhone.getD "" then
      Except.error (Err.Forbidden "Invalid order number or phone number")
    else Except.ok order

/-- Projection that blanks the fields in which the two reconciliation paths
legitimately differ even on the same logical event: which path-marker flag
was set (`webhookVerified` by the poll path, `webhookReceived` by the
webhook path) and which raw processor payload was attached. -/
def eraseMeta (p : Payment) : Payment :=
  { p with webhookVerified := false, webhookReceived := false, webhookPayload := none }

/-- Interleaved execution of the two reconcilers for one reference: both
perform their `findFirst` read first, then the webhook write step runs,
then the poll-verify write step runs on the state the webhook left.  Each
handler is exactly its read step followed by its write step, so this is a
legal schedule of the two sequential handlers. -/
def raceWebhookThenVerify (db : PayDB) (reference payload paystackStatus payloadRaw : String)
    (now1 now2 : Nat) : PayDB :=
  let obs1 := findPayment db reference
  let obs2 := findPayment db reference
  let db1 : PayDB :=
    match obs1 with
    | some p => chargeSuccessApply db p payload now1
    | none => db
  match obs2 with
  | some p => verifyApply db1 p paystackStatus payloadRaw now2
  | none => db1

/-- Stock counter of the product row with the given id, `none` when no such
row exists. -/
def pstock (ps : List Product) (pid : Nat) : Option (Option Int) :=
  (ps.find? (fun p => p.id == pid)).map (fun p => p.stockQuantity)

/-- Stock counter of the variant row with the given id, `none` when no such
row exists. -/
def vstock (vs : List Variant) (vid : Nat) : Option (Option Int) :=
  (vs.find? (fun v => v.id == vid)).map (fun v => v.stockQuantity)

/-- Inventory-tracking flag of the product with the given id in a product
list, false when the product is absent (an absent product is skipped by the
stock-adjustment guards). -/
def trackOf (ps : List Product) (pid : Nat) : Bool :=
  ((ps.find? (fun p => p.id == pid)).map (fun p => p.trackInventory)).getD false

/-- Shift a located stock counter by a delta; a missing row or a null
counter is left as it is, matching SQL arithmetic on NULL. -/
def adjStock (delta : Int) (s : Option (Option Int)) : Option (Option Int) :=
  s.map (fun inner => inner.map (fun x => x + delta))

/-- Net quantity the creation transaction subtracts from the product-level
stock counter of `pid`: the lines without a variant, for this product, when
the product list used by the guard marks it tracked. -/
def dtoPDelta (guard : List Product) (pid : Nat) : List OrderItemDto → Int
  | [] => 0
  | item :: rest =>
    (if item.productId = pid ∧ item.variantId = none ∧ trackOf guard item.productId = true
     then (item.quantity : Int) else 0) + dtoPDelta guard pid rest

/-- Net quantity the creation transaction subtracts from the variant-level
stock counter of `vid`. -/
def dtoVDelta (guard : List Product) (vid : Nat) : List OrderItemDto → Int
  | [] => 0
  | item :: rest =>
    (if item.variantId = some vid ∧ trackOf guard item.productId = true
     then (item.quantity : Int) else 0) + dtoVDelta guard vid rest

/-- Net quantity the cancellation transaction adds back to the product-level
stock counter of `pid`. -/
def ordPDelta (guard : List Product) (pid : Nat) : List OrderItem → Int
  | [] => 0
  | item :: rest =>
    (if item.productId = pid ∧ item.variantId = none ∧ trackOf guard item.productId = true
     then (item.quantity : Int) else 0) + ordPDelta guard pid rest

/-- Net quantity the cancellation transaction adds back to the variant-level
stock counter of `vid`. -/
def ordVDelta (guard : List Product) (vid : Nat) : List OrderItem → Int
  | [] => 0
  | item :: rest =>
    (if item.variantId = some vid ∧ trackOf guard item.productId = true
     then (item.quantity : Int) else 0) + ordVDelta guard vid rest

/-- Key projection of an order line shared by the DTO and the persisted
item: product, chosen variant, quantity. -/
def dtoKey (it : OrderItemDto) : Nat × Option Nat × Nat :=
  (it.productId, it.variantId, it.quantity)

/-- Key projection of a persisted order line. -/
def itemView (it : OrderItem) : Nat × Option Nat × Nat :=
  (it.productId, it.variantId, it.quantity)

/-- Fixture: a payment already reconciled to COMPLETED. -/
def donePayment : Payment :=
  { id := 1, orderId := 7, amount := 50, reference := "R",
    status := PaymentStatus.COMPLETED, verifiedAt := some 3,
    webhookVerified := false, webhookReceived := true, webhookPayload := some "old" }

/-- Fixture: the order of `donePayment`, already advanced by reconciliation. -/
def doneOrder : PayOrder :=
  { id := 7, customerEmail := "kofi@example.com", customerPhone := "0244000001",
    total := 50, paymentStatus := PaymentStatus.COMPLETED, paidAt := some 3,
    status := OrderStatus.PREPARING, merchantHasPaystack := true }

/-- Fixture: payment store holding one completed payment. -/
def doneDB : PayDB := { payments := [donePayment], orders := [doneOrder] }

/-- Fixture: a payment still PENDING. -/
def pendPayment : Payment :=
  { id := 1, orderId := 7, amount := 50, reference := "R",
    status := PaymentStatus.PENDING, verifiedAt := none,
    webhookVerified := false, webhookReceived := false, webhookPayload := none }

/-- Fixture: the order of `pendPayment`, not yet paid. -/
def pendOrder : PayOrder :=
  { id := 7, customerEmail := "kofi@example.com", customerPhone := "0244000001",
    total := 50, paymentStatus := PaymentStatus.PENDING, paidAt := none,
    status := OrderStatus.PLACED, merchantHasPaystack := true }

/-- Fixture: payment store holding one pending payment. -/
def pendDB : PayDB := { payments := [pendPayment], orders := [pendOrder] }

/-- Fixture builder: a stored order of the example store with no line
items, one creation history entry and the given status. -/
def mkOrder (id : Nat) (orderNumber customerPhone : String) (status : OrderStatus) :
    StoredOrder :=
  { id := id, orderNumber := orderNumber, storeId := 1, customerName := "Kofi",
    customerPhone := customerPhone, customerEmail := none, status := status,
    subtotal := 0, deliveryFee := 0, tax := 0, discount := 0, total := 0,
    deliveryOption := "PICKUP", deliveryAddress := none, deliveryCity := none,
    deliveryArea := none, deliveryNotes := none,
    paymentMethod := "CASH_ON_DELIVERY", paymentStatus := PaymentStatus.PENDING,
    customerNotes := none, merchantNotes := none, trackingUrl := none,
    statusHistory := [{ status := OrderStatus.PLACED, timestamp := 0, note := "Order placed" }],
    items := [], acceptedAt := none, preparingAt := none, readyAt := none,
    deliveredAt := none, completedAt := none, cancelledAt := none,
    cancellationReason := none }

/-- Fixture: a tracked product with plain stock. -/
def prodPlain : Product :=
  { id := 1, storeId := 1, name := "Rice", description := "Local rice",
    images := [], sku := none, price := 10, isAvailable := true,
    trackInventory := true, stockQuantity := some 5, orderCount := 0 }

/-- Fixture: a tracked product whose stock lives on its variant. -/
def prodWithVariant : Product :=
  { id := 2, storeId := 1, name := "Shirt", description := "Cotton shirt",
    images := [], sku := some "SH-1", price := 8, isAvailable := true,
    trackInventory := true, stockQuantity := some 9, orderCount := 0 }

/-- Fixture: the variant of `prodWithVariant`. -/
def varA : Variant :=
  { id := 21, productId := 2, name := "Large", price := some 12,
    isAvailable := true, stockQuantity := some 4 }

/-- Fixture: a tracked product whose stock counter is null. -/
def prodNullStock : Product :=
  { id := 3, storeId := 1, name := "Beads", description := "Hand made",
    images := [], sku := none, price := 6, isAvailable := true,
    trackInventory := true, stockQuantity := none, orderCount := 0 }

/-- Fixture: a tracked product with stock, whose variant has a null stock
counter. -/
def prodVarNull : Product :=
  { id := 4, storeId := 1, name := "Cloth", description := "Kente cloth",
    images := [], sku := none, price := 7, isAvailable := true,
    trackInventory := true, stockQuantity := some 5, orderCount := 0 }

/-- Fixture: the null-stock variant of `prodVarNull`. -/
def varNull : Variant :=
  { id := 41, productId := 4, name := "Blue", price := none,
    isAvailable := true, stockQuantity := none }

/-- Fixture: an active, published store. -/
def exStore : Store := { id := 1, merchantId := 1, status := "ACTIVE", isPublished := true }

/-- Fixture: the merchant owning the example store. -/
def exMerchant : Merchant := { id := 1, userId := 77 }

/-- Fixture: the example shop state. -/
def exShop : Shop :=
  { stores := [exStore], merchants := [exMerchant],
    products := [prodPlain, prodWithVariant, prodNullStock, prodVarNull],
    variants := [varA, varNull],
    orders := [mkOrder 1 "ORD-1" "0241" OrderStatus.ACCEPTED,
               mkOrder 2 "ORD-2" "0242" OrderStatus.DELIVERED,
               mkOrder 3 "ORD-3" "0243" OrderStatus.PLACED] }

/-- Fixture builder: create-order input on the example store, varying the
line items. -/
def mkDto (items : List OrderItemDto) : CreateOrderDto :=
  { storeId := 1, customerName := "Ama", customerPhone := "0240",
    customerEmail := none, items := items, deliveryOption := "PICKUP",
    deliveryAddress := none, deliveryCity := none, deliveryArea := none,
    deliveryNotes := none, paymentMethod := "CASH_ON_DELIVERY", customerNotes := none }

/-- Fixture: order of two lines, one plain product and one variant line. -/
def exDto6 : CreateOrderDto :=
  mkDto [{ productId := 1, variantId := none, quantity := 2 },
         { productId := 2, variantId := some 21, quantity := 3 }]

/-- Fixture: order whose second line exceeds the available stock. -/
def exDto4 : CreateOrderDto :=
  mkDto [{ productId := 2, variantId := none, quantity := 1 },
         { productId := 1, variantId := none, quantity := 7 }]

/-- Fixture: order of one line on the null-stock product, with a chosen
quantity. -/
def exDto10 (q : Nat) : CreateOrderDto :=
  mkDto [{ productId := 3, variantId := none, quantity := q }]

/-- Fixture: order of one line on the null-stock variant, with a chosen
quantity. -/
def exDto10v (q : Nat) : CreateOrderDto :=
  mkDto [{ productId := 4, variantId := some 41, quantity := q }]

/-- Shop state after creating the round-trip example order. -/
def exShop6A : Shop :=
  match createOrder exShop exDto6 "ORD-6" 50 10 with
  | Except.ok r => r.fst
  | Except.error _ => exShop

/-- The round-trip example order as created. -/
def exOrd6 : StoredOrder :=
  match createOrder exShop exDto6 "ORD-6" 50 10 with
  | Except.ok r => r.snd
  | Except.error _ => mkOrder 0 "X" "X" OrderStatus.PLACED

/-- Shop state after cancelling the round-trip example order. -/
def exShop6B : Shop :=
  match cancelOrder exShop6A 50 none none 11 with
  | Except.ok s => s
  | Except.error _ => exShop6A

/-- Shop component of a createOrder result, the empty shop on error. -/
def createShopOf (res : Except Err (Shop × StoredOrder)) : Shop :=
  match res with
  | Except.ok r => r.fst
  | Except.error _ => { stores := [], merchants := [], products := [], variants := [], orders := [] }

/-- Fixture: create-order input naming a store that does not exist. -/
def exDtoNoStore : CreateOrderDto :=
  { mkDto [] with storeId := 9 }

/-- Fixture: merchant-delivery order that supplies neither a delivery
address nor a city. -/
def exDtoNoAddr : CreateOrderDto :=
  { mkDto [{ productId := 1, variantId := none, quantity := 1 }] with
    deliveryOption := "MERCHANT_DELIVERY" }

/-- Timestamp field owned by an order status, for the six statuses that
stamp one (section 3 of the specification: accepted / preparing / ready /
delivered / completed / cancelled). -/
def tsField : OrderStatus → Option (StoredOrder → Option Nat)
  | OrderStatus.ACCEPTED => some (fun o => o.acceptedAt)
  | OrderStatus.PREPARING => some (fun o => o.preparingAt)
  | OrderStatus.READY_FOR_PICKUP => some (fun o => o.readyAt)
  | OrderStatus.DELIVERED => some (fun o => o.deliveredAt)
  | OrderStatus.COMPLETED => some (fun o => o.completedAt)
  | OrderStatus.CANCELLED => some (fun o => o.cancelledAt)
  | _ => none

/-- A successful transition stamps exactly the timestamp field of the new
status and leaves every other timestamp field unchanged. -/
def stampOk (before after : StoredOrder) (newStatus : OrderStatus) (now : Nat) : Prop :=
  ∀ s f, tsField s = some f →
    f after = (if s = newStatus then some now else f before)

deriving instance DecidableEq for Except

/-- C1 counterexample: on a payment that is already COMPLETED the two
reconciliation paths do not converge on identical state.  The webhook path
leaves the store untouched, while `verifyPayment` for the same reference
and a successful processor result rewrites the payment row (and the order),
so the states after the two paths differ. -/
theorem verifyPayment_diverges_from_webhook_on_completed :
    handleChargeSuccess doneDB "R" "pl" 5 = doneDB ∧
    (verifyPayment doneDB "R" "success" "pl" 5).isOk = true ∧
    (verifyPayment doneDB "R" "success" "pl" 5).map (fun r => r.fst) ≠
      Except.ok doneDB := by
  decide

/-- C1 (amended): when the stored payment for the reference is still
PENDING and the processor reports success, the poll path and the webhook
path produce the same order state and the same payment state up to the
path-marker fields (`webhookVerified` versus `webhookReceived`, and the raw
payload each path attaches); outside that case the two paths diverge. -/
theorem verifyPayment_matches_webhook_on_pending (db : PayDB)
    (reference payload payloadRaw : String) (now : Nat) (p : Payment)
    (hfind : findPayment db reference = some p)
    (hpend : p.status = PaymentStatus.PENDING) :
    (verifyPayment db reference "success" payloadRaw now).map
        (fun r => (r.fst.orders, r.fst.payments.map eraseMeta, r.snd)) =
      Except.ok ((handleChargeSuccess db reference payload now).orders,
        (handleChargeSuccess db reference payload now).payments.map eraseMeta,
        true) := by
  unfold verifyPayment handleChargeSuccess
  rw [hfind]
  unfold verifyApply chargeSuccessApply
  simp only [hpend, if_pos, Except.map, beq_self_eq_true, if_true]
  refine congrArg Except.ok ?_
  refine Prod.ext ?_ (Prod.ext ?_ rfl)
  · rfl
  · simp only [List.map_map]
    apply List.map_congr_left
    intro a _
    by_cases h : a.id = p.id <;> simp [h, eraseMeta]

/-- Witness for the amended C1 theorem at the pending fixture. -/
theorem verifyPayment_matches_webhook_on_pending_witness :
    (verifyPayment pendDB "R" "success" "raw" 5).map
        (fun r => (r.fst.orders, r.fst.payments.map eraseMeta, r.snd)) =
      Except.ok ((handleChargeSuccess pendDB "R" "pl" 5).orders,
        (handleChargeSuccess pendDB "R" "pl" 5).payments.map eraseMeta,
        true) :=
  verifyPayment_matches_webhook_on_pending pendDB "R" "pl" "raw" 5 pendPayment
    (by decide) (by decide)

/-- C2 counterexample: `verifyPayment` changes the status of a payment that
is already COMPLETED — with a failed processor verification it moves the
payment COMPLETED → FAILED, so COMPLETED is not terminal under the engine
operations as the claim states. -/
theorem verifyPayment_fails_a_completed_payment :
    (findPayment doneDB "R").map Payment.status = some PaymentStatus.COMPLETED ∧
    (verifyPayment doneDB "R" "failed" "pl" 5).toOption.map
        (fun r => (findPayment r.fst "R").map Payment.status) =
      some (some PaymentStatus.FAILED) := by
  decide

/-- C2 (amended): on the webhook path and in payment initialization the
claimed lifecycle does hold — `handleChargeSuccess` leaves the whole store
untouched whenever the stored payment for the reference is not PENDING
(first part), `handleWebhook` either rejects, leaves the store unchanged,
or applies exactly `handleChargeSuccess` (second part), and
`initializePayment` only appends one fresh PENDING payment row, leaving
every existing payment and order untouched (third part).  Only
`verifyPayment` breaks terminality, as the counterexample shows. -/
theorem terminal_payment_never_revisited_by_webhook :
    (∀ (db : PayDB) (reference payload : String) (now : Nat) (p : Payment),
      findPayment db reference = some p → p.status ≠ PaymentStatus.PENDING →
      handleChargeSuccess db reference payload now = db) ∧
    (∀ (hmacHex : String → String) (parse : String → WebhookEvent) (db : PayDB)
        (signature body : String) (now : Nat),
      handleWebhook hmacHex parse db signature body now =
          Except.ok (handleChargeSuccess db (parse body).reference (parse body).payload now) ∨
        handleWebhook hmacHex parse db signature body now = Except.ok db ∨
        handleWebhook hmacHex parse db signature body now =
          Except.error (Err.BadRequest "Invalid webhook signature")) ∧
    (∀ (db : PayDB) (orderId : Nat) (email phone : String) (newId : Nat)
        (reference : String) (db' : PayDB) (pay : Payment),
      initializePayment db orderId email phone newId reference = Except.ok (db', pay) →
      db'.payments = db.payments ++ [pay] ∧ pay.status = PaymentStatus.PENDING ∧
        db'.orders = db.orders) := by
  refine ⟨?_, ?_, ?_⟩
  · intro db reference payload now p hfind hterm
    unfold handleChargeSuccess
    rw [hfind]
    unfold chargeSuccessApply
    simp [hterm]
  · intro hmacHex parse db signature body now
    unfold handleWebhook
    by_cases hs : verifyWebhookSignature hmacHex signature body
    · by_cases he : (parse body).event == "charge.success"
      · left; simp [hs, he]
      · right; left; simp [hs, he]
    · right; right; simp [hs]
  · intro db orderId email phone newId reference db' pay h
    unfold initializePayment at h
    split at h
    · exact absurd h (by simp)
    · split at h
      · exact absurd h (by simp)
      · split at h
        · exact absurd h (by simp)
        · split at h
          · exact absurd h (by simp)
          · simp only [Except.ok.injEq, Prod.mk.injEq] at h
            obtain ⟨hdb, hpay⟩ := h
            subst hdb
            subst hpay
            exact ⟨rfl, rfl, rfl⟩

/-- Witness for the amended C2 theorem: the webhook path leaves the
completed fixture untouched, and initialization on the pending fixture
appends one fresh PENDING row. -/
theorem terminal_payment_never_revisited_by_webhook_witness :
    handleChargeSuccess doneDB "R" "x" 9 = doneDB ∧
    ({ doneDB with payments := doneDB.payments ++
        [{ id := 2, orderId := 7, amount := 50, reference := "R2",
           status := PaymentStatus.PENDING, verifiedAt := none,
           webhookVerified := false, webhookReceived := false,
           webhookPayload := none }] } : PayDB).payments =
      doneDB.payments ++
        [{ id := 2, orderId := 7, amount := 50, reference := "R2",
           status := PaymentStatus.PENDING, verifiedAt := none,
           webhookVerified := false, webhookReceived := false,
           webhookPayload := none }] ∧
    PaymentStatus.PENDING = PaymentStatus.PENDING := by
  refine ⟨?_, ?_, rfl⟩
  · exact terminal_payment_never_revisited_by_webhook.1 doneDB "R" "x" 9 donePayment
      (by decide) (by decide)
  · exact (terminal_payment_never_revisited_by_webhook.2.2 pendDB 7 "kofi@example.com"
      "0244000001" 2 "R2"
      { pendDB with payments := pendDB.payments ++
          [{ id := 2, orderId := 7, amount := 50, reference := "R2",
             status := PaymentStatus.PENDING, verifiedAt := none,
             webhookVerified := false, webhookReceived := false,
             webhookPayload := none }] }
      { id := 2, orderId := 7, amount := 50, reference := "R2",
        status := PaymentStatus.PENDING, verifiedAt := none,
        webhookVerified := false, webhookReceived := false,
        webhookPayload := none } (by decide)).2.1 ▸ rfl

/-- C3: the PENDING guard is a separate `findFirst` read followed by an
unconditional keyed write, so it does not behave as an atomic conditional
update.  At this interleaving (webhook read, verify read, webhook write,
verify write) both reconcilers observe the payment PENDING, the webhook
writer transitions it to COMPLETED and advances the order — and the
poll-verify writer then mutates the store again, instead of performing no
additional mutation as the claim requires. -/
theorem reconciliation_race_double_mutation :
    (findPayment pendDB "R").map Payment.status = some PaymentStatus.PENDING ∧
    handleChargeSuccess pendDB "R" "pl" 5 ≠ pendDB ∧
    raceWebhookThenVerify pendDB "R" "pl" "success" "raw" 5 6 ≠
      handleChargeSuccess pendDB "R" "pl" 5 := by
  decide

/-- C8: a webhook delivery whose HMAC-SHA-512 hex signature over the raw
body differs from the supplied header is rejected with the
invalid-signature error, for every body, every parser and every claimed
event type; the error carries no state, so no payment and no order is
mutated, and the parser is never consulted. -/
theorem handleWebhook_rejects_bad_signature (hmacHex : String → String)
    (parse : String → WebhookEvent) (db : PayDB) (signature body : String)
    (now : Nat) (h : hmacHex body ≠ signature) :
    handleWebhook hmacHex parse db signature body now =
      Except.error (Err.BadRequest "Invalid webhook signature") := by
  unfold handleWebhook verifyWebhookSignature
  simp [h]

/-- Witness for the C8 theorem at a concrete mismatching signature. -/
theorem handleWebhook_rejects_bad_signature_witness :
    handleWebhook (fun _ => "aa") (fun b => { event := b, reference := b, payload := b })
        doneDB "bb" "body" 0 =
      Except.error (Err.BadRequest "Invalid webhook signature") :=
  handleWebhook_rejects_bad_signature (fun _ => "aa")
    (fun b => { event := b, reference := b, payload := b }) doneDB "bb" "body" 0
    (by decide)

/-- C9 counterexample: a public tracking request that supplies no phone at
all still receives the full order, so the order is not returned only when
the supplied phone matches the recorded customer phone. -/
theorem trackOrder_returns_order_without_phone :
    getOrderByNumber exShop "ORD-3" none =
      Except.ok (mkOrder 3 "ORD-3" "0243" OrderStatus.PLACED) := by
  decide

/-- C9 (amended): the phone comparison runs only when a non-empty phone
accompanies the request.  The order is returned when the supplied phone
matches the recorded one, and also when the phone is absent or empty; only
a supplied non-empty phone different from the recorded one is rejected,
with the Forbidden error. -/
theorem trackOrder_phone_check (shop : Shop) (orderNumber : String)
    (ord : StoredOrder)
    (hfind : shop.orders.find? (fun o => o.orderNumber == orderNumber) = some ord) :
    getOrderByNumber shop orderNumber none = Except.ok ord ∧
    getOrderByNumber shop orderNumber (some "") = Except.ok ord ∧
    (∀ p : String, ord.customerPhone = p →
      getOrderByNumber shop orderNumber (some p) = Except.ok ord) ∧
    (∀ p : String, p ≠ "" → ord.customerPhone ≠ p →
      getOrderByNumber shop orderNumber (some p) =
        Except.error (Err.Forbidden "Invalid order number or phone number")) := by
  unfold getOrderByNumber
  simp only [hfind]
  refine ⟨by simp [strTruthy], by simp [strTruthy], ?_, ?_⟩
  · intro p hmatch
    simp [strTruthy, hmatch]
  · intro p hne hdiff
    simp [strTruthy, hne, hdiff]

/-- Witness for the amended C9 theorem on the tracking fixture: matching
phone and absent phone are served, a different phone is rejected. -/
theorem trackOrder_phone_check_witness :
    getOrderByNumber exShop "ORD-3" none =
      Except.ok (mkOrder 3 "ORD-3" "0243" OrderStatus.PLACED) ∧
    getOrderByNumber exShop "ORD-3" (some "0243") =
      Except.ok (mkOrder 3 "ORD-3" "0243" OrderStatus.PLACED) ∧
    getOrderByNumber exShop "ORD-3" (some "9999") =
      Except.error (Err.Forbidden "Invalid order number or phone number") := by
  have h := trackOrder_phone_check exShop "ORD-3"
    (mkOrder 3 "ORD-3" "0243" OrderStatus.PLACED) (by decide)
  exact ⟨h.1, h.2.2.1 "0243" (by decide), h.2.2.2 "9999" (by decide) (by decide)⟩

/-- C7: the first half of the claim holds — cancelling a DELIVERED order is
refused — but the second half fails: for an ACCEPTED order (not PLACED, not
terminal) an anonymous caller presenting no actor id is not rejected with
Forbidden; the merchant-ownership check is skipped whenever no user id
accompanies the request, and the cancellation succeeds and sets the order
CANCELLED. -/
theorem cancelOrder_anonymous_not_rejected :
    cancelOrder exShop 2 none none 9 =
      Except.error (Err.BadRequest "Cannot cancel order with this status") ∧
    (cancelOrder exShop 1 none none 9).toOption.bind
        (fun s => (s.orders.find? (fun o => o.id == 1)).map (fun o => o.status)) =
      some OrderStatus.CANCELLED := by
  decide

/-- C10: when a line's product tracks inventory but the effective stock
counter is null, the sufficiency check is skipped for any quantity.  On the
null-stock product (line without variant) and on the null-stock variant the
order is accepted for every quantity, InsufficientStock is never raised,
and the transaction still runs its stock decrement for the line — the null
counter stays null (NULL minus q is NULL), and in the variant case the
decrement targets the variant row, leaving the product counter untouched. -/
theorem null_stock_skips_check (q : Nat) (hq : 1 ≤ q) :
    (createOrder exShop (exDto10 q) "ORD-10" 52 10).isOk = true ∧
    pstock (createShopOf (createOrder exShop (exDto10 q) "ORD-10" 52 10)).products 3 =
      some none ∧
    (createOrder exShop (exDto10v q) "ORD-10v" 53 10).isOk = true ∧
    vstock (createShopOf (createOrder exShop (exDto10v q) "ORD-10v" 53 10)).variants 41 =
      some none ∧
    pstock (createShopOf (createOrder exShop (exDto10v q) "ORD-10v" 53 10)).products 4 =
      some (some 5) := by
  refine ⟨rfl, rfl, rfl, rfl, rfl⟩

/-- Witness for the C10 theorem at quantity one million. -/
theorem null_stock_skips_check_witness :
    (createOrder exShop (exDto10 1000000) "ORD-10" 52 10).isOk = true ∧
    pstock (createShopOf (createOrder exShop (exDto10 1000000) "ORD-10" 52 10)).products 3 =
      some none ∧
    (createOrder exShop (exDto10v 1000000) "ORD-10v" 53 10).isOk = true ∧
    vstock (createShopOf (createOrder exShop (exDto10v 1000000) "ORD-10v" 53 10)).variants 41 =
      some none ∧
    pstock (createShopOf (createOrder exShop (exDto10v 1000000) "ORD-10v" 53 10)).products 4 =
      some (some 5) :=
  null_stock_skips_check 1000000 (by decide)

/-- Helper: a failing line anywhere in the list fails the whole item loop. -/
theorem buildItems_errors_of_bad_line (products : List Product)
    (variants : List Variant) (items : List OrderItemDto) (item : OrderItemDto)
    (hmem : item ∈ items)
    (herr : (checkLine products variants item).isOk = false) :
    (buildItems products variants items).isOk = false := by
  induction items with
  | nil => cases hmem
  | cons a rest ih =>
    unfold buildItems
    cases hc : checkLine products variants a with
    | error e => simp [Except.isOk, Except.toBool]
    | ok oi =>
      cases hmem with
      | head =>
        rw [hc] at herr
        simp [Except.isOk, Except.toBool] at herr
      | tail _ h2 =>
        have hih := ih h2
        cases hb : buildItems products variants rest with
        | error e => simp [Except.isOk, Except.toBool]
        | ok r =>
          rw [hb] at hih
          simp [Except.isOk, Except.toBool] at hih

/-- Helper: a successful item loop certifies every line. -/
theorem buildItems_ok_line (products : List Product) (variants : List Variant)
    (items : List OrderItemDto) (r : Nat × List OrderItem)
    (hok : buildItems products variants items = Except.ok r) :
    ∀ item ∈ items, (checkLine products variants item).isOk = true := by
  induction items generalizing r with
  | nil => intro item hmem; cases hmem
  | cons a rest ih =>
    intro item hmem
    unfold buildItems at hok
    split at hok
    · exact absurd hok (by simp)
    · rename_i oi hc
      split at hok
      · exact absurd hok (by simp)
      · rename_i s2 ois2 hb
        cases hmem with
        | head => simp [hc, Except.isOk, Except.toBool]
        | tail _ h2 => exact ih (s2, ois2) hb item h2

/-- C4: precondition failures of createOrder are raised before the
transaction, and the model error carries no state, so no order row, no
items, no stock decrement and no order-count increment is applied.  A
missing store fails with NotFound; an inactive or unpublished store fails
with the not-available error; a merchant-delivery request missing the
address or the city fails with the required-fields error; a failing line
anywhere in the item list (missing or unavailable product or variant, or
insufficient stock) makes the whole createOrder fail; and a successful
createOrder certifies that every line passed its checks. -/
theorem createOrder_validates_before_mutation (shop : Shop) (dto : CreateOrderDto)
    (orderNumber : String) (newId now : Nat) :
    (shop.stores.find? (fun s => s.id == dto.storeId) = none →
      createOrder shop dto orderNumber newId now =
        Except.error (Err.NotFound "Store not found")) ∧
    (∀ store, shop.stores.find? (fun s => s.id == dto.storeId) = some store →
      (store.status != "ACTIVE" || !store.isPublished) = true →
      createOrder shop dto orderNumber newId now =
        Except.error (Err.BadRequest "Store is not available for orders")) ∧
    (∀ store, shop.stores.find? (fun s => s.id == dto.storeId) = some store →
      (store.status != "ACTIVE" || !store.isPublished) = false →
      (dto.deliveryOption == "MERCHANT_DELIVERY" &&
        (!(strTruthy dto.deliveryAddress) || !(strTruthy dto.deliveryCity))) = true →
      createOrder shop dto orderNumber newId now =
        Except.error
          (Err.BadRequest "Delivery address and city are required for merchant delivery")) ∧
    ((∃ item ∈ dto.items,
        (checkLine (filteredProducts shop dto) shop.variants item).isOk = false) →
      (createOrder shop dto orderNumber newId now).isOk = false) ∧
    (∀ r, createOrder shop dto orderNumber newId now = Except.ok r →
      ∀ item ∈ dto.items,
        (checkLine (filteredProducts shop dto) shop.variants item).isOk = true) := by
  refine ⟨?_, ?_, ?_, ?_, ?_⟩
  · intro h
    unfold createOrder
    rw [h]
  · intro store h hbad
    unfold createOrder
    rw [h]
    simp [hbad]
  · intro store h hactive hmiss
    unfold createOrder
    rw [h]
    simp [hactive, hmiss]
  · rintro ⟨item, hmem, herr⟩
    unfold createOrder
    cases hs : shop.stores.find? (fun s => s.id == dto.storeId) with
    | none => simp [Except.isOk, Except.toBool]
    | some store =>
      by_cases h1 : (store.status != "ACTIVE" || !store.isPublished) = true
      · simp [h1, Except.isOk, Except.toBool]
      · by_cases h2 : (dto.deliveryOption == "MERCHANT_DELIVERY" &&
            (!(strTruthy dto.deliveryAddress) || !(strTruthy dto.deliveryCity))) = true
        · simp [h1, h2, Except.isOk, Except.toBool]
        · by_cases h3 : ((filteredProducts shop dto).length != dto.items.length) = true
          · simp [h1, h2, h3, Except.isOk, Except.toBool]
          · have hb := buildItems_errors_of_bad_line (filteredProducts shop dto)
              shop.variants dto.items item hmem herr
            cases hbuild : buildItems (filteredProducts shop dto) shop.variants dto.items with
            | error e => simp [h1, h2, h3, hbuild, Except.isOk, Except.toBool]
            | ok r =>
              rw [hbuild] at hb
              simp [Except.isOk, Except.toBool] at hb
  · intro r hok item hmem
    unfold createOrder at hok
    split at hok
    · exact absurd hok (by simp)
    · split at hok
      · exact absurd hok (by simp)
      · dsimp only at hok
        split at hok
        · exact absurd hok (by simp)
        · split at hok
          · exact absurd hok (by simp)
          · split at hok
            · exact absurd hok (by simp)
            · rename_i sub ois hb
              exact buildItems_ok_line (filteredProducts shop dto) shop.variants
                dto.items (sub, ois) hb item hmem

/-- Witness for the C4 theorem: the missing-store fixture fails with
NotFound, the merchant-delivery fixture without address and city fails
with the required-fields error, and the fixture whose second line exceeds
the stock aborts the whole order. -/
theorem createOrder_validates_before_mutation_witness :
    createOrder exShop exDtoNoStore "ORD-0" 60 10 =
      Except.error (Err.NotFound "Store not found") ∧
    createOrder exShop exDtoNoAddr "ORD-A" 61 10 =
      Except.error
        (Err.BadRequest "Delivery address and city are required for merchant delivery") ∧
    (createOrder exShop exDto4 "ORD-4" 51 10).isOk = false := by
  refine ⟨?_, ?_, ?_⟩
  · exact (createOrder_validates_before_mutation exShop exDtoNoStore "ORD-0" 60 10).1
      (by decide)
  · exact (createOrder_validates_before_mutation exShop exDtoNoAddr "ORD-A" 61 10).2.2.1
      exStore (by decide) (by decide) (by decide)
  · exact (createOrder_validates_before_mutation exShop exDto4 "ORD-4" 51 10).2.2.2.1
      ⟨{ productId := 1, variantId := none, quantity := 7 }, by decide, by decide⟩

/-- Helper: an if-then-else over statuses is unchanged when the equality
test is flipped. -/
theorem if_eq_comm_statuses (a b : OrderStatus) (x y : Option Nat) :
    (if a = b then x else y) = (if b = a then x else y) := by
  by_cases h : a = b
  · subst h; rfl
  · rw [if_neg h, if_neg (fun hba => h hba.symm)]

/-- C5: for an authorized merchant caller, updateOrderStatus succeeds if
and only if the (current → requested) pair is an edge of the section 4.1
transition table.  First part: the implementation table coincides with the
specification table on every pair.  Second part: a disallowed pair fails
with the invalid-transition error, whose result carries no state, leaving
status, history and timestamps unchanged.  Third part: an allowed pair
appends exactly one status-history entry, stamps exactly the timestamp
field belonging to the new status, leaves the other timestamp fields
unchanged, and persists the status. -/
theorem updateOrderStatus_follows_table (shop : Shop) (userId orderId : Nat)
    (newStatus : OrderStatus) (notes turl : Option String) (now : Nat)
    (ord : StoredOrder) (m : Merchant) (st : Store)
    (hord : shop.orders.find? (fun o => o.id == orderId) = some ord)
    (hm : shop.merchants.find? (fun x => x.userId == userId) = some m)
    (hst : shop.stores.find? (fun s => s.id == ord.storeId) = some st)
    (hown : st.merchantId = m.id) :
    (∀ c n, validateStatusTransition c n = specAllows c n) ∧
    (validateStatusTransition ord.status newStatus = false →
      updateOrderStatus shop userId orderId newStatus notes turl now =
        Except.error (Err.BadRequest "Cannot transition")) ∧
    (validateStatusTransition ord.status newStatus = true →
      match updateOrderStatus shop userId orderId newStatus notes turl now with
      | Except.ok r =>
          r.snd.status = newStatus ∧
          r.snd.statusHistory = ord.statusHistory ++
            [{ status := newStatus, timestamp := now,
               note := strOr notes ("Status updated to " ++ statusStr newStatus) }] ∧
          stampOk ord r.snd newStatus now ∧
          r.fst.orders = shop.orders.map
            (fun o => if o.id == orderId then r.snd else o)
      | Except.error _ => False) := by
  refine ⟨?_, ?_, ?_⟩
  · intro c n
    cases c <;> cases n <;> rfl
  · intro hbad
    unfold updateOrderStatus
    simp [hord, hm, hst, hown, hbad]
  · intro hgood
    unfold updateOrderStatus
    simp only [hord, hm, hst]
    simp only [hown, beq_self_eq_true, Bool.not_true, Bool.false_eq_true, if_false,
      hgood, Bool.not_false, Bool.true_eq_false]
    refine ⟨trivial, trivial, ?_, trivial⟩
    intro s f hf
    cases s <;> simp only [tsField, Option.some.injEq, reduceCtorEq] at hf <;>
      subst hf <;>
      exact if_eq_comm_statuses newStatus _ _ _

/-- Witness for the C5 theorem: a DELIVERED → PREPARING request on the
fixture is refused with the invalid-transition error, and the
implementation table agrees with the specification table at a sample
pair. -/
theorem updateOrderStatus_follows_table_witness :
    updateOrderStatus exShop 77 2 OrderStatus.PREPARING none none 9 =
      Except.error (Err.BadRequest "Cannot transition") ∧
    validateStatusTransition OrderStatus.ACCEPTED OrderStatus.PREPARING =
      specAllows OrderStatus.ACCEPTED OrderStatus.PREPARING := by
  constructor
  · exact (updateOrderStatus_follows_table exShop 77 2 OrderStatus.PREPARING none none 9
      (mkOrder 2 "ORD-2" "0242" OrderStatus.DELIVERED) exMerchant exStore
      (by decide) (by decide) (by decide) (by decide)).2.1 (by decide)
  · exact (updateOrderStatus_follows_table exShop 77 1 OrderStatus.PREPARING none none 9
      (mkOrder 1 "ORD-1" "0241" OrderStatus.ACCEPTED) exMerchant exStore
      (by decide) (by decide) (by decide) (by decide)).1
      OrderStatus.ACCEPTED OrderStatus.PREPARING

/-- Helper: shifting a located stock counter by zero changes nothing. -/
theorem adjStock_zero (s : Option (Option Int)) : adjStock 0 s = s := by
  cases s with
  | none => rfl
  | some inner => cases inner <;> simp [adjStock]

/-- Helper: two shifts of a located stock counter compose additively. -/
theorem adjStock_add (a b : Int) (s : Option (Option Int)) :
    adjStock a (adjStock b s) = adjStock (b + a) s := by
  cases s with
  | none => rfl
  | some inner => cases inner <;> simp [adjStock, add_assoc]

/-- Helper: a keyed bulk update commutes with a keyed lookup over a product
list, provided the update preserves the key. -/
theorem pfind_map (g : Product → Product) (hg : ∀ p, (g p).id = p.id)
    (k0 k : Nat) (l : List Product) :
    (l.map (fun p => if p.id == k0 then g p else p)).find? (fun p => p.id == k) =
      (l.find? (fun p => p.id == k)).map (fun p => if p.id == k0 then g p else p) := by
  induction l with
  | nil => rfl
  | cons a t ih =>
    have hkey : (if a.id == k0 then g a else a).id = a.id := by
      by_cases h0 : (a.id == k0) = true
      · rw [if_pos h0, hg]
      · rw [if_neg h0]
    by_cases h : (a.id == k) = true
    · simp only [List.map_cons, List.find?_cons, hkey, h]
      rfl
    · simp only [List.map_cons, List.find?_cons, hkey, h, ih]

/-- Helper: a keyed bulk update commutes with a keyed lookup over a variant
list, provided the update preserves the key. -/
theorem vfind_map (g : Variant → Variant) (hg : ∀ v, (g v).id = v.id)
    (k0 k : Nat) (l : List Variant) :
    (l.map (fun v => if v.id == k0 then g v else v)).find? (fun v => v.id == k) =
      (l.find? (fun v => v.id == k)).map (fun v => if v.id == k0 then g v else v) := by
  induction l with
  | nil => rfl
  | cons a t ih =>
    have hkey : (if a.id == k0 then g a else a).id = a.id := by
      by_cases h0 : (a.id == k0) = true
      · rw [if_pos h0, hg]
      · rw [if_neg h0]
    by_cases h : (a.id == k) = true
    · simp only [List.map_cons, List.find?_cons, hkey, h]
      rfl
    · simp only [List.map_cons, List.find?_cons, hkey, h, ih]

/-- Helper: in a list whose product ids are pairwise distinct, the keyed
lookup returns exactly the member carrying the key. -/
theorem find?_eq_of_id_nodup (l : List Product) (a : Product) (k : Nat)
    (hnodup : (l.map (fun x => x.id)).Nodup) (hmem : a ∈ l)
    (hk : (a.id == k) = true) :
    l.find? (fun x => x.id == k) = some a := by
  induction l with
  | nil => cases hmem
  | cons b t ih =>
    have hnodup2 : (b.id :: t.map (fun x => x.id)).Nodup := by simpa using hnodup
    have hnd := List.nodup_cons.mp hnodup2
    by_cases hb : (b.id == k) = true
    · rw [@List.find?_cons_of_pos _ (fun x => x.id == k) b t hb]
      cases hmem with
      | head => rfl
      | tail _ hmem2 =>
        exfalso
        have h1 : a.id = k := by simpa using hk
        have h2 : b.id = k := by simpa using hb
        exact hnd.1 (by rw [h2, ← h1]; exact List.mem_map_of_mem (fun x => x.id) hmem2)
    · rw [@List.find?_cons_of_neg _ (fun x => x.id == k) b t hb]
      cases hmem with
      | head => exact absurd hk hb
      | tail _ hmem2 => exact ih hnd.2 hmem2

/-- Helper: a keyed bulk update that does not touch the stock counter
leaves every located product stock unchanged. -/
theorem pstock_map_preserving (g : Product → Product) (hid : ∀ p, (g p).id = p.id)
    (hstock : ∀ p, (g p).stockQuantity = p.stockQuantity) (k0 pid : Nat)
    (l : List Product) :
    pstock (l.map (fun p => if p.id == k0 then g p else p)) pid = pstock l pid := by
  unfold pstock
  rw [pfind_map g hid k0 pid l]
  cases l.find? (fun p => p.id == pid) with
  | none => rfl
  | some p => by_cases h0 : p.id = k0 <;> simp [h0, hstock]

/-- Helper: a keyed shift of product stock counters moves exactly the
located counter of the addressed key. -/
theorem pstock_map_shift (g : Int → Int) (k0 pid : Nat) (l : List Product) :
    pstock (l.map (fun p => if p.id == k0 then
        { p with stockQuantity := p.stockQuantity.map g } else p)) pid =
      (if k0 = pid then (pstock l pid).map (fun inner => inner.map g)
       else pstock l pid) := by
  unfold pstock
  rw [pfind_map (fun p => { p with stockQuantity := p.stockQuantity.map g })
    (fun p => rfl) k0 pid l]
  cases hres : l.find? (fun p => p.id == pid) with
  | none => by_cases h : k0 = pid <;> simp [h]
  | some p =>
    have hpid : p.id = pid := by simpa using List.find?_some hres
    by_cases h : k0 = pid
    · subst h
      simp [hpid]
    · have h1 : ¬ p.id = k0 := by
        rw [hpid]
        exact fun hh => h hh.symm
      simp [h1, h]

/-- Helper: a keyed shift of variant stock counters moves exactly the
located counter of the addressed key. -/
theorem vstock_map_shift (g : Int → Int) (k0 vid : Nat) (l : List Variant) :
    vstock (l.map (fun v => if v.id == k0 then
        { v with stockQuantity := v.stockQuantity.map g } else v)) vid =
      (if k0 = vid then (vstock l vid).map (fun inner => inner.map g)
       else vstock l vid) := by
  unfold vstock
  rw [vfind_map (fun v => { v with stockQuantity := v.stockQuantity.map g })
    (fun v => rfl) k0 vid l]
  cases hres : l.find? (fun v => v.id == vid) with
  | none => by_cases h : k0 = vid <;> simp [h]
  | some v =>
    have hvid : v.id = vid := by simpa using List.find?_some hres
    by_cases h : k0 = vid
    · subst h
      simp [hvid]
    · have h1 : ¬ v.id = k0 := by
        rw [hvid]
        exact fun hh => h hh.symm
      simp [h1, h]

/-- Helper: a keyed bulk update that preserves id and inventory flag leaves
the tracking lookup unchanged. -/
theorem trackOf_map_preserving (g : Product → Product) (hid : ∀ p, (g p).id = p.id)
    (htr : ∀ p, (g p).trackInventory = p.trackInventory) (k0 pid : Nat)
    (l : List Product) :
    trackOf (l.map (fun p => if p.id == k0 then g p else p)) pid = trackOf l pid := by
  unfold trackOf
  rw [pfind_map g hid k0 pid l]
  cases l.find? (fun p => p.id == pid) with
  | none => rfl
  | some p => by_cases h0 : p.id = k0 <;> simp [h0, htr]

/-- Helper: effect of one creation stock step on a located product stock
counter. -/
theorem pstock_createStockStep (validated : List Product) (shop : Shop)
    (item : OrderItemDto) (pid : Nat) :
    pstock (createStockStep validated shop item).products pid =
      adjStock (if item.productId = pid ∧ item.variantId = none ∧
          trackOf validated item.productId = true then -(item.quantity : Int) else 0)
        (pstock shop.products pid) := by
  unfold createStockStep
  cases hf : validated.find? (fun p => p.id == item.productId) with
  | none =>
    have ht : trackOf validated item.productId = false := by
      unfold trackOf
      rw [hf]
      rfl
    rw [if_neg (by rw [ht]; simp), adjStock_zero]
    exact pstock_map_preserving
      (fun p => { p with orderCount := p.orderCount + item.quantity })
      (fun p => rfl) (fun p => rfl) item.productId pid shop.products
  | some product =>
    have ht : trackOf validated item.productId = product.trackInventory := by
      unfold trackOf
      rw [hf]
      rfl
    cases hv : item.variantId with
    | some vid =>
      rw [if_neg (by simp), adjStock_zero]
      by_cases htr : product.trackInventory = true <;>
        simp only [htr, if_true, if_false, Bool.false_eq_true] <;>
        exact pstock_map_preserving
          (fun p => { p with orderCount := p.orderCount + item.quantity })
          (fun p => rfl) (fun p => rfl) item.productId pid shop.products
    | none =>
      by_cases htr : product.trackInventory = true
      · simp only [htr, if_true]
        rw [pstock_map_preserving
          (fun p => { p with orderCount := p.orderCount + item.quantity })
          (fun p => rfl) (fun p => rfl) item.productId pid]
        rw [pstock_map_shift (fun s => s - (item.quantity : Int)) item.productId pid
          shop.products]
        by_cases hp : item.productId = pid
        · rw [hp] at ht
          simp [hp, ht, htr, adjStock, sub_eq_add_neg]
        · simp [hp, adjStock, sub_eq_add_neg]
      · have ht2 : trackOf validated item.productId = false := by
          rw [ht]
          exact Bool.not_eq_true _ ▸ (by simpa using htr)
        rw [if_neg (by rw [ht2]; simp), adjStock_zero]
        simp only [htr, Bool.false_eq_true, if_false]
        exact pstock_map_preserving
          (fun p => { p with orderCount := p.orderCount + item.quantity })
          (fun p => rfl) (fun p => rfl) item.productId pid shop.products

/-- Helper: effect of one creation stock step on a located variant stock
counter. -/
theorem vstock_createStockStep (validated : List Product) (shop : Shop)
    (item : OrderItemDto) (vid : Nat) :
    vstock (createStockStep validated shop item).variants vid =
      adjStock (if item.variantId = some vid ∧ trackOf validated item.productId = true
          then -(item.quantity : Int) else 0)
        (vstock shop.variants vid) := by
  unfold createStockStep
  cases hf : validated.find? (fun p => p.id == item.productId) with
  | none =>
    have ht : trackOf validated item.productId = false := by
      unfold trackOf
      rw [hf]
      rfl
    rw [if_neg (by rw [ht]; simp), adjStock_zero]
  | some product =>
    have ht : trackOf validated item.productId = product.trackInventory := by
      unfold trackOf
      rw [hf]
      rfl
    cases hv : item.variantId with
    | none =>
      rw [if_neg (by simp), adjStock_zero]
      by_cases htr : product.trackInventory = true <;> simp [htr]
    | some wid =>
      by_cases htr : product.trackInventory = true
      · simp only [htr, if_true]
        rw [vstock_map_shift (fun s => s - (item.quantity : Int)) wid vid shop.variants]
        by_cases hw : wid = vid
        · subst hw
          simp [ht, htr, adjStock, sub_eq_add_neg]
        · have : ¬ (some wid = some vid ∧ trackOf validated item.productId = true) := by
            intro hcon
            exact hw (Option.some.inj hcon.1)
          simp [hw, this, adjStock]
      · have ht2 : trackOf validated item.productId = false := by
          rw [ht]
          simpa using htr
        rw [if_neg (by rw [ht2]; simp), adjStock_zero]
        simp [htr]

/-- Helper: a creation stock step never changes the inventory-tracking
lookup. -/
theorem trackOf_createStockStep (validated : List Product) (shop : Shop)
    (item : OrderItemDto) (pid : Nat) :
    trackOf (createStockStep validated shop item).products pid =
      trackOf shop.products pid := by
  unfold createStockStep
  cases hf : validated.find? (fun p => p.id == item.productId) with
  | none =>
    exact trackOf_map_preserving
      (fun p => { p with orderCount := p.orderCount + item.quantity })
      (fun p => rfl) (fun p => rfl) item.productId pid shop.products
  | some product =>
    cases hv : item.variantId with
    | some wid =>
      by_cases htr : product.trackInventory = true <;>
        simp only [htr, if_true, Bool.false_eq_true, if_false] <;>
        exact trackOf_map_preserving
          (fun p => { p with orderCount := p.orderCount + item.quantity })
          (fun p => rfl) (fun p => rfl) item.productId pid shop.products
    | none =>
      by_cases htr : product.trackInventory = true
      · simp only [htr, if_true]
        rw [trackOf_map_preserving
          (fun p => { p with orderCount := p.orderCount + item.quantity })
          (fun p => rfl) (fun p => rfl) item.productId pid]
        exact trackOf_map_preserving
          (fun p => { p with stockQuantity :=
            p.stockQuantity.map (fun s => s - (item.quantity : Int)) })
          (fun p => rfl) (fun p => rfl) item.productId pid shop.products
      · simp only [htr, Bool.false_eq_true, if_false]
        exact trackOf_map_preserving
          (fun p => { p with orderCount := p.orderCount + item.quantity })
          (fun p => rfl) (fun p => rfl) item.productId pid shop.products

/-- Helper: a creation stock step only touches products and variants. -/
theorem createStockStep_frame (validated : List Product) (shop : Shop)
    (item : OrderItemDto) :
    (createStockStep validated shop item).orders = shop.orders ∧
    (createStockStep validated shop item).stores = shop.stores ∧
    (createStockStep validated shop item).merchants = shop.merchants := by
  unfold createStockStep
  cases validated.find? (fun p => p.id == item.productId) with
  | none => exact ⟨rfl, rfl, rfl⟩
  | some product =>
    cases item.variantId <;> by_cases htr : product.trackInventory = true <;>
      simp [htr]

/-- Helper: effect of one cancellation stock step on a located product
stock counter. -/
theorem pstock_cancelStockStep (captured : List Product) (shop : Shop)
    (item : OrderItem) (pid : Nat) :
    pstock (cancelStockStep captured shop item).products pid =
      adjStock (if item.productId = pid ∧ item.variantId = none ∧
          trackOf captured item.productId = true then (item.quantity : Int) else 0)
        (pstock shop.products pid) := by
  unfold cancelStockStep
  cases hf : captured.find? (fun p => p.id == item.productId) with
  | none =>
    have ht : trackOf captured item.productId = false := by
      unfold trackOf
      rw [hf]
      rfl
    rw [if_neg (by rw [ht]; simp), adjStock_zero]
  | some product =>
    have ht : trackOf captured item.productId = product.trackInventory := by
      unfold trackOf
      rw [hf]
      rfl
    cases hv : item.variantId with
    | some wid =>
      rw [if_neg (by simp), adjStock_zero]
      by_cases htr : product.trackInventory = true <;> simp [htr]
    | none =>
      by_cases htr : product.trackInventory = true
      · simp only [htr, if_true]
        rw [pstock_map_shift (fun s => s + (item.quantity : Int)) item.productId pid
          shop.products]
        by_cases hp : item.productId = pid
        · rw [hp] at ht
          simp [hp, ht, htr, adjStock]
        · simp [hp, adjStock]
      · have ht2 : trackOf captured item.productId = false := by
          rw [ht]
          simpa using htr
        rw [if_neg (by rw [ht2]; simp), adjStock_zero]
        simp [htr]

/-- Helper: effect of one cancellation stock step on a located variant
stock counter. -/
theorem vstock_cancelStockStep (captured : List Product) (shop : Shop)
    (item : OrderItem) (vid : Nat) :
    vstock (cancelStockStep captured shop item).variants vid =
      adjStock (if item.variantId = some vid ∧ trackOf captured item.productId = true
          then (item.quantity : Int) else 0)
        (vstock shop.variants vid) := by
  unfold cancelStockStep
  cases hf : captured.find? (fun p => p.id == item.productId) with
  | none =>
    have ht : trackOf captured item.productId = false := by
      unfold trackOf
      rw [hf]
      rfl
    rw [if_neg (by rw [ht]; simp), adjStock_zero]
  | some product =>
    have ht : trackOf captured item.productId = product.trackInventory := by
      unfold trackOf
      rw [hf]
      rfl
    cases hv : item.variantId with
    | none =>
      rw [if_neg (by simp), adjStock_zero]
      by_cases htr : product.trackInventory = true <;> simp [htr]
    | some wid =>
      by_cases htr : product.trackInventory = true
      · simp only [htr, if_true]
        rw [vstock_map_shift (fun s => s + (item.quantity : Int)) wid vid shop.variants]
        by_cases hw : wid = vid
        · subst hw
          simp [ht, htr, adjStock]
        · have : ¬ (some wid = some vid ∧ trackOf captured item.productId = true) := by
            intro hcon
            exact hw (Option.some.inj hcon.1)
          simp [hw, this, adjStock]
      · have ht2 : trackOf captured item.productId = false := by
          rw [ht]
          simpa using htr
        rw [if_neg (by rw [ht2]; simp), adjStock_zero]
        simp [htr]

/-- Helper: the whole creation stock loop shifts a located product stock
counter down by exactly the accumulated product-level delta. -/
theorem pstock_createStock (validated : List Product) (items : List OrderItemDto)
    (shop : Shop) (pid : Nat) :
    pstock (createStock validated items shop).products pid =
      adjStock (-(dtoPDelta validated pid items)) (pstock shop.products pid) := by
  induction items generalizing shop with
  | nil =>
    unfold createStock dtoPDelta
    rw [neg_zero, adjStock_zero]
  | cons item rest ih =>
    unfold createStock dtoPDelta
    rw [ih, pstock_createStockStep, adjStock_add]
    congr 1
    by_cases h : item.productId = pid ∧ item.variantId = none ∧
        trackOf validated item.productId = true
    · simp only [if_pos h]
      ring
    · simp only [if_neg h]
      ring

/-- Helper: the whole creation stock loop shifts a located variant stock
counter down by exactly the accumulated variant-level delta. -/
theorem vstock_createStock (validated : List Product) (items : List OrderItemDto)
    (shop : Shop) (vid : Nat) :
    vstock (createStock validated items shop).variants vid =
      adjStock (-(dtoVDelta validated vid items)) (vstock shop.variants vid) := by
  induction items generalizing shop with
  | nil =>
    unfold createStock dtoVDelta
    rw [neg_zero, adjStock_zero]
  | cons item rest ih =>
    unfold createStock dtoVDelta
    rw [ih, vstock_createStockStep, adjStock_add]
    congr 1
    by_cases h : item.variantId = some vid ∧ trackOf validated item.productId = true
    · simp only [if_pos h]
      ring
    · simp only [if_neg h]
      ring

/-- Helper: the creation stock loop never changes the tracking lookup. -/
theorem trackOf_createStock (validated : List Product) (items : List OrderItemDto)
    (shop : Shop) (pid : Nat) :
    trackOf (createStock validated items shop).products pid =
      trackOf shop.products pid := by
  induction items generalizing shop with
  | nil => rfl
  | cons item rest ih =>
    unfold createStock
    rw [ih, trackOf_createStockStep]

/-- Helper: the creation stock loop never changes the order list. -/
theorem createStock_orders (validated : List Product) (items : List OrderItemDto)
    (shop : Shop) :
    (createStock validated items shop).orders = shop.orders := by
  induction items generalizing shop with
  | nil => rfl
  | cons item rest ih =>
    unfold createStock
    rw [ih, (createStockStep_frame validated shop item).1]

/-- Helper: the whole cancellation stock loop shifts a located product
stock counter up by exactly the accumulated product-level delta. -/
theorem pstock_cancelStock (captured : List Product) (items : List OrderItem)
    (shop : Shop) (pid : Nat) :
    pstock (cancelStock captured items shop).products pid =
      adjStock (ordPDelta captured pid items) (pstock shop.products pid) := by
  induction items generalizing shop with
  | nil =>
    unfold cancelStock ordPDelta
    rw [adjStock_zero]
  | cons item rest ih =>
    unfold cancelStock ordPDelta
    rw [ih, pstock_cancelStockStep, adjStock_add]

/-- Helper: the whole cancellation stock loop shifts a located variant
stock counter up by exactly the accumulated variant-level delta. -/
theorem vstock_cancelStock (captured : List Product) (items : List OrderItem)
    (shop : Shop) (vid : Nat) :
    vstock (cancelStock captured items shop).variants vid =
      adjStock (ordVDelta captured vid items) (vstock shop.variants vid) := by
  induction items generalizing shop with
  | nil =>
    unfold cancelStock ordVDelta
    rw [adjStock_zero]
  | cons item rest ih =>
    unfold cancelStock ordVDelta
    rw [ih, vstock_cancelStockStep, adjStock_add]

/-- Helper: a line accepted by the stock check carries the product id,
variant id and quantity of its input line. -/
theorem finishLine_view (product : Product) (item : OrderItemDto) (price : Nat)
    (variantName : Option String) (stockQuantity : Option Int) (oi : OrderItem)
    (h : finishLine product item price variantName stockQuantity = Except.ok oi) :
    itemView oi = dtoKey item := by
  unfold finishLine at h
  split at h
  · exact absurd h (by simp)
  · injection h with h1
    subst h1
    rfl

/-- Helper: a line accepted by checkLine carries the ids and quantity of
its input line, and its product was found in the pre-fetched list. -/
theorem checkLine_fields (products : List Product) (variants : List Variant)
    (item : OrderItemDto) (oi : OrderItem)
    (h : checkLine products variants item = Except.ok oi) :
    itemView oi = dtoKey item ∧
    ∃ p, products.find? (fun x => x.id == item.productId) = some p := by
  unfold checkLine at h
  split at h
  · exact absurd h (by simp)
  · rename_i product hf
    refine ⟨?_, ⟨product, hf⟩⟩
    split at h
    · exact finishLine_view _ _ _ _ _ _ h
    · split at h
      · exact absurd h (by simp)
      · split at h
        · exact absurd h (by simp)
        · exact finishLine_view _ _ _ _ _ _ h

/-- Helper: the item rows produced by a successful item loop project back
to the input lines. -/
theorem buildItems_views (products : List Product) (variants : List Variant)
    (items : List OrderItemDto) (r : Nat × List OrderItem)
    (h : buildItems products variants items = Except.ok r) :
    r.snd.map itemView = items.map dtoKey := by
  induction items generalizing r with
  | nil =>
    unfold buildItems at h
    injection h with h1
    subst h1
    rfl
  | cons a rest ih =>
    unfold buildItems at h
    split at h
    · exact absurd h (by simp)
    · rename_i oi hc
      split at h
      · exact absurd h (by simp)
      · rename_i s2 ois2 hb
        injection h with h1
        subst h1
        simp only [List.map_cons]
        rw [(checkLine_fields products variants a oi hc).1]
        rw [ih (s2, ois2) hb]

/-- Helper: cancelling a PLACED order succeeds for any caller and commits
the status flip together with the stock-restore loop over the order's
lines, guarded by the product rows captured at entry. -/
theorem cancelOrder_eq_of_placed (shop : Shop) (orderId : Nat)
    (reason : Option String) (uid : Option Nat) (now2 : Nat) (ord : StoredOrder)
    (hfindo : shop.orders.find? (fun o => o.id == orderId) = some ord)
    (hstatus : ord.status = OrderStatus.PLACED) :
    cancelOrder shop orderId reason uid now2 =
      Except.ok (cancelStock shop.products ord.items
        { shop with orders := shop.orders.map (fun o =>
            if o.id == orderId then
              { ord with
                status := OrderStatus.CANCELLED
                cancelledAt := some now2
                cancellationReason :=
                  match reason with
                  | some v => some v
                  | none => ord.cancellationReason
                statusHistory := ord.statusHistory ++
                  [{ status := OrderStatus.CANCELLED, timestamp := now2,
                     note := strOr reason "Order cancelled" }] }
            else o) }) := by
  unfold cancelOrder
  simp only [hfindo]
  rw [if_neg (by rw [hstatus]; simp)]
  simp [hstatus]

/-- Helper: for a product id that appears in the filtered product list of a
createOrder call, the tracking lookup agrees between the full product table
and the filtered list, provided product ids are unique. -/
theorem trackOf_filtered (shop : Shop) (dto : CreateOrderDto) (x : Nat) (p : Product)
    (hpn : (shop.products.map (fun q => q.id)).Nodup)
    (hfp : (filteredProducts shop dto).find? (fun q => q.id == x) = some p) :
    trackOf shop.products x = trackOf (filteredProducts shop dto) x := by
  have hk : (p.id == x) = true :=
    @List.find?_some _ (fun q => q.id == x) p (filteredProducts shop dto) hfp
  have hmem : p ∈ shop.products := by
    have hmem2 := List.mem_of_find?_eq_some hfp
    unfold filteredProducts at hmem2
    exact List.mem_of_mem_filter hmem2
  have hfull : shop.products.find? (fun q => q.id == x) = some p :=
    find?_eq_of_id_nodup shop.products p x hpn hmem hk
  unfold trackOf
  rw [hfp, hfull]

/-- Helper: when the persisted lines project back to the input lines and
the two guard lists agree on inventory tracking for every ordered product,
the cancel-side stock deltas equal the create-side stock deltas. -/
theorem deltas_match (validated captured : List Product)
    (dtoItems : List OrderItemDto) (ordItems : List OrderItem)
    (hview : ordItems.map itemView = dtoItems.map dtoKey)
    (htrack : ∀ it ∈ dtoItems,
      trackOf captured it.productId = trackOf validated it.productId) :
    (∀ pid, ordPDelta captured pid ordItems = dtoPDelta validated pid dtoItems) ∧
    (∀ vid, ordVDelta captured vid ordItems = dtoVDelta validated vid dtoItems) := by
  induction dtoItems generalizing ordItems with
  | nil =>
    cases ordItems with
    | nil => exact ⟨fun pid => rfl, fun vid => rfl⟩
    | cons a t => exact absurd hview (by simp)
  | cons d rest ih =>
    cases ordItems with
    | nil => exact absurd hview (by simp)
    | cons o t =>
      simp only [List.map_cons, List.cons.injEq] at hview
      obtain ⟨hhead, htail⟩ := hview
      have hcomp : o.productId = d.productId ∧ o.variantId = d.variantId ∧
          o.quantity = d.quantity := by
        have h1 := congrArg Prod.fst hhead
        have h2 := congrArg (fun z => z.snd.fst) hhead
        have h3 := congrArg (fun z => z.snd.snd) hhead
        exact ⟨h1, h2, h3⟩
      obtain ⟨h1, h2, h3⟩ := hcomp
      have htd : trackOf captured d.productId = trackOf validated d.productId :=
        htrack d (List.mem_cons_self d rest)
      have ihr := ih t htail (fun it hit => htrack it (List.mem_cons_of_mem d hit))
      constructor
      · intro pid
        unfold ordPDelta dtoPDelta
        rw [ihr.1 pid, h1, h2, h3, htd]
      · intro vid
        unfold ordVDelta dtoVDelta
        rw [ihr.2 vid, h2, h1, h3, htd]

/-- Helper: cancelling a just-created PLACED order undoes the creation
stock loop on every located product and variant stock counter. -/
theorem roundtrip_core (shopO : Shop) (V : List Product)
    (items : List OrderItemDto) (oid : Nat) (ord : StoredOrder)
    (reason : Option String) (uid : Option Nat) (now2 : Nat) (shop2 : Shop)
    (hstatus : ord.status = OrderStatus.PLACED)
    (hfind : (createStock V items shopO).orders.find? (fun o => o.id == oid) = some ord)
    (h2 : cancelOrder (createStock V items shopO) oid reason uid now2 = Except.ok shop2)
    (hview : ord.items.map itemView = items.map dtoKey)
    (htr : ∀ it ∈ items,
      trackOf (createStock V items shopO).products it.productId = trackOf V it.productId)
    (pid vid : Nat) :
    pstock shop2.products pid = pstock shopO.products pid ∧
    vstock shop2.variants vid = vstock shopO.variants vid := by
  rw [cancelOrder_eq_of_placed _ _ _ _ _ _ hfind hstatus] at h2
  injection h2 with h2'
  subst h2'
  have hd := deltas_match V (createStock V items shopO).products items ord.items hview htr
  constructor
  · rw [pstock_cancelStock]
    show adjStock (ordPDelta (createStock V items shopO).products pid ord.items)
        (pstock (createStock V items shopO).products pid) = pstock shopO.products pid
    rw [hd.1 pid, pstock_createStock, adjStock_add]
    have hz : -(dtoPDelta V pid items) + dtoPDelta V pid items = 0 := by ring
    rw [hz, adjStock_zero]
  · rw [vstock_cancelStock]
    show adjStock (ordVDelta (createStock V items shopO).products vid ord.items)
        (vstock (createStock V items shopO).variants vid) = vstock shopO.variants vid
    rw [hd.2 vid, vstock_createStock, adjStock_add]
    have hz : -(dtoVDelta V vid items) + dtoVDelta V vid items = 0 := by ring
    rw [hz, adjStock_zero]

/-- C6: creating an order and then cancelling it, with no other operation
touching the same items in between, restores every product-level and every
variant-level stock counter to exactly its value before the order was
created: the cancel-side increment per line equals the create-side
decrement, which equals the ordered quantity.  The hypotheses ask only
that product ids are unique (a database key constraint) and that the
generated order row id is fresh. -/
theorem create_then_cancel_restores_stock (shop : Shop) (dto : CreateOrderDto)
    (orderNumber : String) (newId now now2 : Nat) (reason : Option String)
    (uid : Option Nat) (shop1 shop2 : Shop) (ord : StoredOrder)
    (hpn : (shop.products.map (fun p => p.id)).Nodup)
    (hfresh : ∀ o ∈ shop.orders, o.id ≠ newId)
    (h1 : createOrder shop dto orderNumber newId now = Except.ok (shop1, ord))
    (h2 : cancelOrder shop1 ord.id reason uid now2 = Except.ok shop2)
    (pid vid : Nat) :
    pstock shop2.products pid = pstock shop.products pid ∧
    vstock shop2.variants vid = vstock shop.variants vid := by
  unfold createOrder at h1
  split at h1
  · exact absurd h1 (by simp)
  · split at h1
    · exact absurd h1 (by simp)
    · dsimp only at h1
      split at h1
      · exact absurd h1 (by simp)
      · split at h1
        · exact absurd h1 (by simp)
        · split at h1
          · exact absurd h1 (by simp)
          · rename_i subtotal orderItems hbuild
            simp only [Except.ok.injEq, Prod.mk.injEq] at h1
            obtain ⟨hshop1, hord⟩ := h1
            have hstatus : ord.status = OrderStatus.PLACED := by rw [← hord]
            have hid : ord.id = newId := by rw [← hord]
            have hitems : ord.items = orderItems := by rw [← hord]
            rw [hord] at hshop1
            subst hshop1
            have hfind : (createStock (filteredProducts shop dto) dto.items
                { shop with orders := shop.orders ++ [ord] }).orders.find?
                  (fun o => o.id == ord.id) = some ord := by
              rw [createStock_orders]
              show (shop.orders ++ [ord]).find? (fun o => o.id == ord.id) = some ord
              rw [List.find?_append]
              have hnone : shop.orders.find? (fun o => o.id == ord.id) = none := by
                rw [List.find?_eq_none]
                intro o ho
                simp only [beq_iff_eq, hid]
                exact hfresh o ho
              rw [hnone]
              simp [List.find?]
            have hview : ord.items.map itemView = dto.items.map dtoKey := by
              rw [hitems]
              exact buildItems_views (filteredProducts shop dto) shop.variants
                dto.items (subtotal, orderItems) hbuild
            have htr : ∀ it ∈ dto.items,
                trackOf (createStock (filteredProducts shop dto) dto.items
                  { shop with orders := shop.orders ++ [ord] }).products it.productId =
                  trackOf (filteredProducts shop dto) it.productId := by
              intro it hit
              rw [trackOf_createStock]
              show trackOf shop.products it.productId =
                trackOf (filteredProducts shop dto) it.productId
              have hline := buildItems_ok_line (filteredProducts shop dto) shop.variants
                dto.items (subtotal, orderItems) hbuild it hit
              cases hc : checkLine (filteredProducts shop dto) shop.variants it with
              | error e =>
                rw [hc] at hline
                simp [Except.isOk, Except.toBool] at hline
              | ok oi =>
                obtain ⟨-, p, hfp⟩ := checkLine_fields _ _ _ _ hc
                exact trackOf_filtered shop dto it.productId p hpn hfp
            exact roundtrip_core { shop with orders := shop.orders ++ [ord] }
              (filteredProducts shop dto) dto.items ord.id ord reason uid now2 shop2
              hstatus hfind h2 hview htr pid vid

/-- Witness for the C6 theorem on the fixture: a two-line order (plain
product and variant line) is created and cancelled, and both stock
counters return to their pre-order values. -/
theorem create_then_cancel_restores_stock_witness :
    pstock exShop6B.products 1 = pstock exShop.products 1 ∧
    vstock exShop6B.variants 21 = vstock exShop.variants 21 :=
  create_then_cancel_restores_stock exShop exDto6 "ORD-6" 50 10 11 none none
    exShop6A exShop6B exOrd6 (by decide) (by decide) (by decide) (by decide) 1 21
